import Mathlib

/-!
Verification of the Moonraker Home Assistant integration
(`custom_components/moonraker/__init__.py`).

The development shallowly embeds the coordinator logic:

* the query-document builder (`add_query_objects`, `load_all_sensor_data`),
  modelling the inner Python dict `self.query_obj[OBJ]` as an
  insertion-ordered association list `List (String × List String)`;
* the refresh cycle (`_async_update_data`, `_async_get_thumbnail`,
  `_async_fetch_data`), with the RPC transport abstracted as a record of
  functions over an opaque transport-state type, and the observable RPC
  activity (reconnects and calls) recorded in an event trace;
* Python dictionary/list subscripting and `{**a, **b}` merging, with
  Python exceptions (KeyError, IndexError, TypeError, the wrapped
  UpdateFailed) made explicit in an `Except` result.
-/

namespace Moonraker

/-! ### Query document builder -/

/-- A sensor descriptor, as read by `load_all_sensor_data`: only the
`subscriptions` sequence of `(objectPath, fieldName)` pairs is consumed
(name, unit and the other fields of the descriptors play no role here). -/
structure SensorDescriptor where
  subscriptions : List (String × String)

/-- The inner dict `self.query_obj[OBJ]`: an insertion-ordered mapping from
object path to the list of requested field names. -/
abbrev QDoc : Type := List (String × List String)

/-- Key list of a query document (Python `query_object in self.query_obj[OBJ]`
tests membership here). -/
def qkeys (q : QDoc) : List String := q.map (·.1)

/-- Field list stored under key `k`: the value of the first entry whose key is
`k` (Python dict lookup; empty when `k` is absent). -/
def fieldsOf : QDoc → String → List String
  | [], _ => []
  | p :: q, k => if p.1 = k then p.2 else fieldsOf q k

/-- Embeds `add_query_objects`: create an empty entry when the object path is
new, then append the field name unless it is already present. -/
def add_query_objects (q : QDoc) (query_object : String) (result_key : String) : QDoc :=
  let q1 : QDoc := if query_object ∈ qkeys q then q else q ++ [(query_object, [])]
  q1.map (fun p =>
    if p.1 = query_object then
      (p.1, if result_key ∈ p.2 then p.2 else p.2 ++ [result_key])
    else p)

/-- Embeds `load_all_sensor_data`: fold every subscription pair of every
descriptor into the query document, starting from the empty dict. -/
def load_all_sensor_data (sensors : List SensorDescriptor) : QDoc :=
  sensors.foldl
    (fun q sensor =>
      sensor.subscriptions.foldl
        (fun q subscription => add_query_objects q subscription.1 subscription.2) q)
    []

/-! Lemmas about the builder.  The update step of `add_query_objects` is a
key-preserving map over the association list; the lemmas below describe
`qkeys` and `fieldsOf` through such maps and through appending. -/

section MapLemmas

variable (g : String × List String → String × List String)

theorem qkeys_map (hg : ∀ p, (g p).1 = p.1) (q : QDoc) :
    qkeys (q.map g) = qkeys q := by
  simp only [qkeys, List.map_map]
  apply List.map_congr_left
  intro p _
  exact hg p

theorem fieldsOf_map_fix (k : String) (hk : ∀ p, p.1 = k → g p = p)
    (hg : ∀ p, (g p).1 = p.1) (q : QDoc) :
    fieldsOf (q.map g) k = fieldsOf q k := by
  induction q with
  | nil => rfl
  | cons p q ih =>
    simp only [List.map_cons, fieldsOf, hg p]
    by_cases hp : p.1 = k
    · simp [hp, hk p hp]
    · simp [hp, ih]

theorem fieldsOf_map_update (k : String) (F : List String → List String)
    (hF : ∀ p, p.1 = k → (g p).2 = F p.2) (hg : ∀ p, (g p).1 = p.1)
    (q : QDoc) (hmem : k ∈ qkeys q) :
    fieldsOf (q.map g) k = F (fieldsOf q k) := by
  induction q with
  | nil => simp [qkeys] at hmem
  | cons p q ih =>
    simp only [List.map_cons, fieldsOf, hg p]
    by_cases hp : p.1 = k
    · simp [hp, hF p hp]
    · have hmem' : k ∈ qkeys q := by
        rcases List.mem_cons.mp (by simpa only [qkeys, List.map_cons] using hmem) with h | h
        · exact absurd h.symm hp
        · exact h
      simp [hp, ih hmem']

end MapLemmas

theorem fieldsOf_eq_nil_of_not_mem (q : QDoc) (k : String) (h : k ∉ qkeys q) :
    fieldsOf q k = [] := by
  induction q with
  | nil => rfl
  | cons p q ih =>
    have hp : ¬ p.1 = k := fun hpk => h (by simp [qkeys, hpk])
    have h' : k ∉ qkeys q := fun hk => h (by simp [qkeys] at hk ⊢; exact Or.inr hk)
    simp [fieldsOf, hp, ih h']

theorem fieldsOf_append_left (q r : QDoc) (k : String) (h : k ∈ qkeys q) :
    fieldsOf (q ++ r) k = fieldsOf q k := by
  induction q with
  | nil => simp [qkeys] at h
  | cons p q ih =>
    by_cases hp : p.1 = k
    · simp [fieldsOf, hp]
    · have h' : k ∈ qkeys q := by
        rcases List.mem_cons.mp (by simpa only [qkeys, List.map_cons] using h) with hc | hc
        · exact absurd hc.symm hp
        · exact hc
      simp [fieldsOf, hp, ih h']

theorem fieldsOf_append_right (q r : QDoc) (k : String) (h : k ∉ qkeys q) :
    fieldsOf (q ++ r) k = fieldsOf r k := by
  induction q with
  | nil => rfl
  | cons p q ih =>
    have hp : ¬ p.1 = k := fun hpk => h (by simp [qkeys, hpk])
    have h' : k ∉ qkeys q := fun hk => h (by simp [qkeys] at hk ⊢; exact Or.inr hk)
    simp [fieldsOf, hp, ih h']

/-- Effect of one `add_query_objects` call on every key's field list. -/
theorem fieldsOf_add (q : QDoc) (o f k : String) :
    fieldsOf (add_query_objects q o f) k =
      if k = o then (if f ∈ fieldsOf q o then fieldsOf q o else fieldsOf q o ++ [f])
      else fieldsOf q k := by
  unfold add_query_objects
  have hg : ∀ p : String × List String,
      ((if p.1 = o then (p.1, if f ∈ p.2 then p.2 else p.2 ++ [f]) else p)).1 = p.1 := by
    intro p; by_cases hp : p.1 = o <;> simp [hp]
  by_cases hmem : o ∈ qkeys q
  · simp only [hmem, if_true]
    by_cases hk : k = o
    · subst hk
      rw [fieldsOf_map_update _ k (fun l => if f ∈ l then l else l ++ [f]) ?_ hg q hmem,
        if_pos rfl]
      intro p hp
      simp [hp]
    · rw [fieldsOf_map_fix _ k ?_ hg q, if_neg hk]
      intro p hp
      have hpo : ¬ p.1 = o := fun h => hk (hp ▸ h)
      rw [if_neg hpo]
  · simp only [hmem, if_false, List.map_append, List.map_cons, List.map_nil]
    have hsing : (if o = o then ((o : String), if f ∈ ([] : List String) then [] else [] ++ [f])
        else ((o : String), ([] : List String))) = (o, [f]) := by simp
    by_cases hk : k = o
    · subst hk
      have hq : k ∉ qkeys (q.map fun p =>
          if p.1 = k then (p.1, if f ∈ p.2 then p.2 else p.2 ++ [f]) else p) := by
        rw [qkeys_map _ hg]; exact hmem
      rw [fieldsOf_append_right _ _ k hq, if_pos rfl,
        fieldsOf_eq_nil_of_not_mem q k hmem]
      simp [fieldsOf]
    · by_cases hkq : k ∈ qkeys q
      · have hq : k ∈ qkeys (q.map fun p =>
            if p.1 = o then (p.1, if f ∈ p.2 then p.2 else p.2 ++ [f]) else p) := by
          rw [qkeys_map _ hg]; exact hkq
        rw [fieldsOf_append_left _ _ k hq, if_neg hk]
        apply fieldsOf_map_fix _ k ?_ hg q
        intro p hp
        have hpo : ¬ p.1 = o := fun h => hk (hp ▸ h)
        rw [if_neg hpo]
      · have hq : k ∉ qkeys (q.map fun p =>
            if p.1 = o then (p.1, if f ∈ p.2 then p.2 else p.2 ++ [f]) else p) := by
          rw [qkeys_map _ hg]; exact hkq
        rw [fieldsOf_append_right _ _ k hq, if_neg hk,
          fieldsOf_eq_nil_of_not_mem q k hkq]
        simp [fieldsOf, show ¬ o = k from fun h => hk h.symm]

theorem qkeys_add (q : QDoc) (o f : String) :
    qkeys (add_query_objects q o f) =
      if o ∈ qkeys q then qkeys q else qkeys q ++ [o] := by
  unfold add_query_objects
  have hg : ∀ p : String × List String,
      ((if p.1 = o then (p.1, if f ∈ p.2 then p.2 else p.2 ++ [f]) else p)).1 = p.1 := by
    intro p; by_cases hp : p.1 = o <;> simp [hp]
  by_cases hmem : o ∈ qkeys q
  · simp only [hmem, if_true]
    exact qkeys_map _ hg q
  · simp only [hmem, if_false]
    rw [qkeys_map _ hg]
    simp [qkeys]

theorem mem_qkeys_add (q : QDoc) (o f k : String) :
    k ∈ qkeys (add_query_objects q o f) ↔ k ∈ qkeys q ∨ k = o := by
  rw [qkeys_add]
  split <;> rename_i h
  · constructor
    · exact Or.inl
    · rintro (hk | rfl)
      · exact hk
      · exact h
  · simp

theorem mem_ite_append (l : List String) (f x : String) :
    x ∈ (if f ∈ l then l else l ++ [f]) ↔ x ∈ l ∨ x = f := by
  split <;> rename_i h
  · constructor
    · exact Or.inl
    · rintro (hx | rfl)
      · exact hx
      · exact h
  · simp

theorem mem_fieldsOf_add (q : QDoc) (o f k x : String) :
    x ∈ fieldsOf (add_query_objects q o f) k ↔
      x ∈ fieldsOf q k ∨ (k = o ∧ x = f) := by
  rw [fieldsOf_add]
  by_cases hk : k = o
  · subst hk
    rw [if_pos rfl, mem_ite_append]
    tauto
  · rw [if_neg hk]
    tauto

theorem mem_fieldsOf_foldl_subs (subs : List (String × String)) (q : QDoc) (k x : String) :
    x ∈ fieldsOf
        (subs.foldl (fun q sub => add_query_objects q sub.1 sub.2) q) k ↔
      x ∈ fieldsOf q k ∨ (k, x) ∈ subs := by
  induction subs generalizing q with
  | nil => simp
  | cons s subs ih =>
    simp only [List.foldl_cons, ih, mem_fieldsOf_add, List.mem_cons, Prod.ext_iff]
    tauto

theorem mem_qkeys_foldl_subs (subs : List (String × String)) (q : QDoc) (k : String) :
    k ∈ qkeys (subs.foldl (fun q sub => add_query_objects q sub.1 sub.2) q) ↔
      k ∈ qkeys q ∨ ∃ x, (k, x) ∈ subs := by
  induction subs generalizing q with
  | nil => simp
  | cons s subs ih =>
    simp only [List.foldl_cons, ih, mem_qkeys_add, List.mem_cons]
    constructor
    · rintro ((h | hk) | ⟨x, hx⟩)
      · exact Or.inl h
      · exact Or.inr ⟨s.2, Or.inl (by rw [Prod.ext_iff]; exact ⟨hk, rfl⟩)⟩
      · exact Or.inr ⟨x, Or.inr hx⟩
    · rintro (h | ⟨x, hx | hx⟩)
      · exact Or.inl (Or.inl h)
      · exact Or.inl (Or.inr (congrArg Prod.fst hx))
      · exact Or.inr ⟨x, hx⟩

theorem mem_fieldsOf_foldl_sensors (sensors : List SensorDescriptor) (q : QDoc)
    (k x : String) :
    x ∈ fieldsOf
        (sensors.foldl
          (fun q sensor =>
            sensor.subscriptions.foldl
              (fun q subscription =>
                add_query_objects q subscription.1 subscription.2) q) q) k ↔
      x ∈ fieldsOf q k ∨ ∃ s ∈ sensors, (k, x) ∈ s.subscriptions := by
  induction sensors generalizing q with
  | nil => simp
  | cons s sensors ih =>
    simp only [List.foldl_cons, ih, mem_fieldsOf_foldl_subs, List.mem_cons]
    constructor
    · rintro ((h | h) | ⟨t, ht, hx⟩)
      · exact Or.inl h
      · exact Or.inr ⟨s, Or.inl rfl, h⟩
      · exact Or.inr ⟨t, Or.inr ht, hx⟩
    · rintro (h | ⟨t, ht | ht, hx⟩)
      · exact Or.inl (Or.inl h)
      · exact Or.inl (Or.inr (ht ▸ hx))
      · exact Or.inr ⟨t, ht, hx⟩

theorem mem_qkeys_foldl_sensors (sensors : List SensorDescriptor) (q : QDoc)
    (k : String) :
    k ∈ qkeys
        (sensors.foldl
          (fun q sensor =>
            sensor.subscriptions.foldl
              (fun q subscription =>
                add_query_objects q subscription.1 subscription.2) q) q) ↔
      k ∈ qkeys q ∨ ∃ s ∈ sensors, ∃ x, (k, x) ∈ s.subscriptions := by
  induction sensors generalizing q with
  | nil => simp
  | cons s sensors ih =>
    simp only [List.foldl_cons, ih, mem_qkeys_foldl_subs, List.mem_cons]
    constructor
    · rintro ((h | ⟨x, hx⟩) | ⟨t, ht, hx⟩)
      · exact Or.inl h
      · exact Or.inr ⟨s, Or.inl rfl, x, hx⟩
      · exact Or.inr ⟨t, Or.inr ht, hx⟩
    · rintro (h | ⟨t, ht | ht, hx⟩)
      · exact Or.inl (Or.inl h)
      · exact Or.inl (Or.inr (ht ▸ hx))
      · exact Or.inr ⟨t, ht, hx⟩

/-- C1: after `load_all_sensor_data`, the query document's key set is exactly
the union of the object paths occurring in any descriptor's subscriptions,
and the field collection of every key is, as a set, the union of the field
names requested for that object path. -/
theorem load_all_sensor_data_builds_union (sensors : List SensorDescriptor)
    (k x : String) :
    (k ∈ qkeys (load_all_sensor_data sensors) ↔
      ∃ s ∈ sensors, ∃ f, (k, f) ∈ s.subscriptions) ∧
    (x ∈ fieldsOf (load_all_sensor_data sensors) k ↔
      ∃ s ∈ sensors, (k, x) ∈ s.subscriptions) := by
  unfold load_all_sensor_data
  constructor
  · rw [mem_qkeys_foldl_sensors]
    simp [qkeys]
  · rw [mem_fieldsOf_foldl_sensors]
    simp [fieldsOf]

/-- C6: `add_query_objects` is idempotent; repeating a call with identical
arguments returns the query document unchanged. -/
theorem add_query_objects_idem (q : QDoc) (o f : String) :
    add_query_objects (add_query_objects q o f) o f = add_query_objects q o f := by
  have hmem : o ∈ qkeys (add_query_objects q o f) := by
    rw [mem_qkeys_add]
    exact Or.inr rfl
  have hfix : ∀ p ∈ add_query_objects q o f, p.1 = o → f ∈ p.2 := by
    intro p hp hpo
    unfold add_query_objects at hp
    rcases List.mem_map.mp hp with ⟨p', _, rfl⟩
    by_cases h : p'.1 = o
    · rw [if_pos h]
      exact (mem_ite_append _ _ _).mpr (Or.inr rfl)
    · rw [if_neg h] at hpo ⊢
      exact absurd hpo h
  show (if o ∈ qkeys (add_query_objects q o f) then add_query_objects q o f
      else add_query_objects q o f ++ [(o, [])]).map
      (fun p => if p.1 = o then (p.1, if f ∈ p.2 then p.2 else p.2 ++ [f]) else p)
    = add_query_objects q o f
  rw [if_pos hmem]
  have hid : ∀ p ∈ add_query_objects q o f,
      (if p.1 = o then ((p.1 : String), if f ∈ p.2 then p.2 else p.2 ++ [f]) else p) = p := by
    intro p hp
    by_cases h : p.1 = o
    · rw [if_pos h, if_pos (hfix p hp h)]
    · rw [if_neg h]
  rw [List.map_congr_left hid]
  simp

/-! ### JSON values and Python exceptions

The refresh cycle manipulates JSON-shaped results and Python dictionaries.
`JValue` models the values, `PyErr` the exceptions that can escape the
coordinator methods: `updateFailed` is the `UpdateFailed()` raised by
`_async_fetch_data`, the others are the unwrapped built-in exceptions raised
by subscripting (`KeyError`, `IndexError`, `TypeError`). -/

inductive JValue where
  | null
  | bool (b : Bool)
  | num (n : Int)
  | str (s : String)
  | arr (items : List JValue)
  | obj (fields : List (String × JValue))

inductive PyErr where
  | updateFailed
  | keyError (k : String)
  | indexError
  | typeError
deriving DecidableEq

/-- First-match lookup in an association list (Python dict lookup; dicts have
unique keys, so first match is the match). -/
def assocLookup {B : Type} : List (String × B) → String → Option B
  | [], _ => none
  | p :: d, k => if p.1 = k then some p.2 else assocLookup d k

/-- Python `value[k]` on a dict: the entry's value, `KeyError` when the key is
missing, `TypeError` when the value is not a dict. -/
def pyGet (v : JValue) (k : String) : Except PyErr JValue :=
  match v with
  | .obj fields =>
    match assocLookup fields k with
    | some x => .ok x
    | none => .error (.keyError k)
  | _ => .error (.typeError)

/-- Python `value[len(value) - 1]` on a list: its last element, an
`IndexError` when the list is empty (the index is then `-1` on an empty
list), and a `TypeError` on non-list values. -/
def pyLastItem (v : JValue) : Except PyErr JValue :=
  match v with
  | .arr items =>
    match items.getLast? with
    | some x => .ok x
    | none => .error (.indexError)
  | _ => .error (.typeError)

/-- Lookup in a `JValue` object, `none` when the key is missing or the value
is not an object (used only to state properties of merged snapshots). -/
def pyLookup (v : JValue) (k : String) : Option JValue :=
  match v with
  | .obj fields => assocLookup fields k
  | _ => none

/-- One step of Python `{**a, **b}` merging: setting key `k` to `v` replaces
an existing entry in place, otherwise appends the entry. -/
def pySetKey (d : List (String × JValue)) (k : String) (v : JValue) :
    List (String × JValue) :=
  if (assocLookup d k).isSome then
    d.map (fun p => if p.1 = k then (p.1, v) else p)
  else
    d ++ [(k, v)]

/-- Python `{**a, **b}` on two dicts. -/
def pyMergeObj (a b : List (String × JValue)) : List (String × JValue) :=
  b.foldl (fun acc p => pySetKey acc p.1 p.2) a

/-- The condition `gcode_filename is None or gcode_filename == ""` of
`_async_get_thumbnail` (Python `x == ""` is false on non-strings). -/
def isNoneOrEmptyStr (v : JValue) : Bool :=
  match v with
  | .null => true
  | .str s => s == ""
  | _ => false

/-! ### Transport client and the fetch/refresh cycle

The external RPC client (`self.moonraker`) is abstracted as a record of
functions over an opaque transport-state type `σ`: `is_connected` is the
probe `self.moonraker.client.is_connected`, `start` is `self.moonraker.
start()`, and `call_method` is `self.moonraker.client.call_method`, which
either returns a result or raises (modelled as `Except Unit`, the particular
exception being irrelevant to the coordinator).  Every reconnect and every
issued call is recorded in an event trace. -/

structure Client (σ : Type) where
  is_connected : σ → Bool
  start : σ → σ
  call_method : σ → String → Option JValue → σ × Except Unit JValue

inductive Event where
  | start
  | call (method : String) (params : Option JValue)

/-- Outcome of a coordinator step: final transport state, trace of transport
events, and the returned value or the escaping exception. -/
structure StepRes (σ : Type) (α : Type) where
  state : σ
  trace : List Event
  result : Except PyErr α

/-- Embeds `_async_fetch_data`: reconnect first when the transport reports
itself disconnected, then issue the call; any exception the call raises is
caught and re-raised as `UpdateFailed`. -/
def fetchData {σ : Type} (c : Client σ) (s : σ) (query_path : String)
    (query_object : Option JValue) : StepRes σ JValue :=
  let s1 := if c.is_connected s then s else c.start s
  let pre : List Event := if c.is_connected s then [] else [Event.start]
  let out := c.call_method s1 query_path query_object
  { state := out.1,
    trace := pre ++ [Event.call query_path query_object],
    result :=
      match out.2 with
      | .ok result => .ok result
      | .error _ => .error (.updateFailed) }

/-- Embeds `_async_get_thumbnail`: an empty or missing filename short-circuits
to the `{"thumbnails": None}` marker; otherwise `server.files.metadata` is
fetched and `gcode["thumbnails"][len(gcode["thumbnails"]) - 1]
["relative_path"]` is extracted. -/
def getThumbnail {σ : Type} (c : Client σ) (s : σ) (gcode_filename : JValue) :
    StepRes σ (List (String × JValue)) :=
  if isNoneOrEmptyStr gcode_filename then
    { state := s, trace := [], result := .ok [("thumbnails", JValue.null)] }
  else
    let f := fetchData c s "server.files.metadata"
      (some (.obj [("filename", gcode_filename)]))
    match f.result with
    | .error e => { state := f.state, trace := f.trace, result := .error e }
    | .ok gcode =>
      match (pyGet gcode "thumbnails").bind pyLastItem |>.bind
          (fun t => pyGet t "relative_path") with
      | .error e => { state := f.state, trace := f.trace, result := .error e }
      | .ok rel =>
        { state := f.state, trace := f.trace, result := .ok [("thumbnails", rel)] }

/-- The expression `query["status"]["print_stats"]["filename"]` of
`_async_update_data`. -/
def extractFilename (query : JValue) : Except PyErr JValue :=
  (pyGet query "status").bind (fun status =>
    (pyGet status "print_stats").bind (fun print_stats =>
      pyGet print_stats "filename"))

/-- Embeds `_async_update_data` (one `refresh()` tick): fetch the object
query, fetch `printer.info`, extract the printing filename, fetch the
thumbnail, and merge `{**query, **{"printer.info": info}, **thumbnail}`. -/
def updateData {σ : Type} (c : Client σ) (s : σ) (query_obj : JValue) :
    StepRes σ JValue :=
  let f1 := fetchData c s "printer.objects.query" (some query_obj)
  match f1.result with
  | .error e => { state := f1.state, trace := f1.trace, result := .error e }
  | .ok query =>
    let f2 := fetchData c f1.state "printer.info" none
    match f2.result with
    | .error e =>
      { state := f2.state, trace := f1.trace ++ f2.trace, result := .error e }
    | .ok info =>
      match extractFilename query with
      | .error e =>
        { state := f2.state, trace := f1.trace ++ f2.trace, result := .error e }
      | .ok gcode_filename =>
        let f3 := getThumbnail c f2.state gcode_filename
        match f3.result with
        | .error e =>
          { state := f3.state, trace := f1.trace ++ f2.trace ++ f3.trace,
            result := .error e }
        | .ok thumbnail =>
          match query with
          | .obj query_fields =>
            { state := f3.state, trace := f1.trace ++ f2.trace ++ f3.trace,
              result := .ok (.obj (pyMergeObj
                (pyMergeObj query_fields [("printer.info", info)]) thumbnail)) }
          | _ =>
            { state := f3.state, trace := f1.trace ++ f2.trace ++ f3.trace,
              result := .error (.typeError) }

/-- Embeds `async_get_cameras`: a single pass-through fetch. -/
def getCameras {σ : Type} (c : Client σ) (s : σ) : StepRes σ JValue :=
  fetchData c s "server.webcams.list" none

/-- The coordinator's mutable attributes relevant here: the query document
built at construction and the transport state owned by its client. -/
structure Coordinator (σ : Type) where
  query_obj : JValue
  client_state : σ

/-- One `refresh()` tick seen from the coordinator: `_async_update_data` runs
on the stored `query_obj`; only the transport state advances. -/
def coordinatorRefresh {σ : Type} (c : Client σ) (co : Coordinator σ) :
    Coordinator σ × List Event × Except PyErr JValue :=
  let r := updateData c co.client_state co.query_obj
  ({ query_obj := co.query_obj, client_state := r.state }, r.trace, r.result)

/-- `async_get_cameras` seen from the coordinator. -/
def coordinatorGetCameras {σ : Type} (c : Client σ) (co : Coordinator σ) :
    Coordinator σ × List Event × Except PyErr JValue :=
  let r := getCameras c co.client_state
  ({ query_obj := co.query_obj, client_state := r.state }, r.trace, r.result)

/-! Lemmas about the Python dict primitives. -/

theorem assocLookup_append {B : Type} (d1 d2 : List (String × B)) (k : String) :
    assocLookup (d1 ++ d2) k = (assocLookup d1 k).or (assocLookup d2 k) := by
  induction d1 with
  | nil => rfl
  | cons p d1 ih =>
    by_cases hp : p.1 = k
    · simp [assocLookup, hp]
    · simp [assocLookup, hp, ih]

theorem assocLookup_map_set {B : Type} (d : List (String × B)) (k : String) (v : B) :
    assocLookup (d.map (fun p => if p.1 = k then (p.1, v) else p)) k =
      (assocLookup d k).map (fun _ => v) := by
  induction d with
  | nil => rfl
  | cons p d ih =>
    by_cases hp : p.1 = k
    · simp [assocLookup, hp]
    · simp [assocLookup, hp, ih]

theorem assocLookup_map_set_ne {B : Type} (d : List (String × B)) (k k' : String)
    (v : B) (h : k' ≠ k) :
    assocLookup (d.map (fun p => if p.1 = k then (p.1, v) else p)) k' =
      assocLookup d k' := by
  induction d with
  | nil => rfl
  | cons p d ih =>
    by_cases hpk : p.1 = k
    · have hkk : ¬ k = k' := fun hc => h hc.symm
      have hp' : ¬ p.1 = k' := fun hc => h (hc ▸ hpk)
      simp [assocLookup, hpk, hp', hkk, ih]
    · by_cases hp' : p.1 = k'
      · simp [assocLookup, hpk, hp', h]
      · simp [assocLookup, hpk, hp', ih]

theorem assocLookup_setKey_self (d : List (String × JValue)) (k : String)
    (v : JValue) : assocLookup (pySetKey d k v) k = some v := by
  unfold pySetKey
  by_cases h : (assocLookup d k).isSome
  · rw [if_pos h, assocLookup_map_set]
    obtain ⟨x, hx⟩ := Option.isSome_iff_exists.mp h
    rw [hx]
    rfl
  · rw [if_neg h, assocLookup_append, Option.not_isSome_iff_eq_none.mp h]
    simp [assocLookup]

theorem assocLookup_setKey_ne (d : List (String × JValue)) (k k' : String)
    (v : JValue) (h : k' ≠ k) :
    assocLookup (pySetKey d k v) k' = assocLookup d k' := by
  unfold pySetKey
  by_cases hs : (assocLookup d k).isSome
  · rw [if_pos hs, assocLookup_map_set_ne _ _ _ _ h]
  · rw [if_neg hs, assocLookup_append]
    have hkk : ¬ k = k' := fun hc => h hc.symm
    have hnone : assocLookup [(k, v)] k' = none := by
      simp [assocLookup, hkk]
    rw [hnone, Option.or_none]

theorem pyMergeObj_single (a : List (String × JValue)) (k : String) (v : JValue) :
    pyMergeObj a [(k, v)] = pySetKey a k v := rfl

/-! Lemmas about `fetchData`. -/

theorem fetchData_result {σ : Type} (c : Client σ) (s : σ) (p : String)
    (q : Option JValue) :
    (fetchData c s p q).result =
      match (c.call_method (if c.is_connected s then s else c.start s) p q).2 with
      | .ok r => .ok r
      | .error _ => .error (.updateFailed) := rfl

theorem fetchData_trace {σ : Type} (c : Client σ) (s : σ) (p : String)
    (q : Option JValue) :
    (fetchData c s p q).trace =
      (if c.is_connected s then [] else [Event.start]) ++ [Event.call p q] := rfl

/-- An error escaping `_async_fetch_data` is always the wrapped
`UpdateFailed`. -/
theorem fetchData_error_eq {σ : Type} (c : Client σ) (s : σ) (p : String)
    (q : Option JValue) (e : PyErr)
    (h : (fetchData c s p q).result = .error e) : e = PyErr.updateFailed := by
  rw [fetchData_result] at h
  cases hc : (c.call_method (if c.is_connected s then s else c.start s) p q).2 with
  | ok r =>
    rw [hc] at h
    simp at h
  | error u =>
    rw [hc] at h
    simp at h
    exact h.symm

/-- True when some call event in the trace targets `method`. -/
def hasCallTo (method : String) (trace : List Event) : Bool :=
  trace.any (fun e =>
    match e with
    | .call m _ => m == method
    | .start => false)

theorem hasCallTo_append (m : String) (t1 t2 : List Event) :
    hasCallTo m (t1 ++ t2) = (hasCallTo m t1 || hasCallTo m t2) := by
  simp [hasCallTo]

theorem hasCallTo_fetchData {σ : Type} (c : Client σ) (s : σ) (p : String)
    (q : Option JValue) (m : String) :
    hasCallTo m (fetchData c s p q).trace = (p == m) := by
  rw [fetchData_trace, hasCallTo_append]
  by_cases h : c.is_connected s <;> simp [h, hasCallTo]

/-- A successful `pyGet` means the subscripted value was a dict. -/
theorem pyGet_ok_obj (v : JValue) (k : String) (x : JValue)
    (h : pyGet v k = .ok x) : ∃ fields, v = .obj fields := by
  cases v
  case obj fields => exact ⟨fields, rfl⟩
  all_goals simp [pyGet] at h

/-- A successfully extracted filename means the query result was a dict. -/
theorem extractFilename_ok_obj (query : JValue) (fn : JValue)
    (h : extractFilename query = .ok fn) : ∃ fields, query = .obj fields := by
  unfold extractFilename at h
  cases hq : pyGet query "status" with
  | error e =>
    rw [hq] at h
    simp [Except.bind] at h
  | ok status => exact pyGet_ok_obj _ _ _ hq

/-- A successful `_async_get_thumbnail` always returns the singleton dict
`{"thumbnails": v}` for some value `v`. -/
theorem getThumbnail_ok_shape {σ : Type} (c : Client σ) (s : σ) (fn : JValue)
    (tf : List (String × JValue)) (h : (getThumbnail c s fn).result = .ok tf) :
    ∃ v, tf = [("thumbnails", v)] := by
  simp only [getThumbnail] at h
  by_cases hfn : isNoneOrEmptyStr fn
  · rw [if_pos hfn] at h
    simp at h
    exact ⟨JValue.null, h.symm⟩
  · rw [if_neg hfn] at h
    cases hf : (fetchData c s "server.files.metadata"
        (some (.obj [("filename", fn)]))).result with
    | error e =>
      rw [hf] at h
      simp at h
    | ok gcode =>
      rw [hf] at h
      simp only [] at h
      cases hrel : (pyGet gcode "thumbnails").bind pyLastItem |>.bind
          (fun t => pyGet t "relative_path") with
      | error e =>
        rw [hrel] at h
        simp at h
      | ok rel =>
        rw [hrel] at h
        simp at h
        exact ⟨rel, h.symm⟩

/-! ### Concrete clients used to instantiate the theorems -/

/-- A transport that reports itself disconnected and answers every call. -/
def disconnectedClient : Client Unit :=
  { is_connected := fun _ => false
  , start := fun s => s
  , call_method := fun s _m _p => (s, .ok .null) }

/-- A transport whose every call raises. -/
def failingClient : Client Unit :=
  { is_connected := fun _ => true
  , start := fun s => s
  , call_method := fun s _m _p => (s, .error ()) }

/-- A connected transport returning a query result whose
`status.print_stats` dict has no `filename` key. -/
def clientMissingFilename : Client Unit :=
  { is_connected := fun _ => true
  , start := fun s => s
  , call_method := fun s m _p =>
      (s, if m = "printer.objects.query" then
            .ok (.obj [("status", .obj [("print_stats", .obj [])])])
          else .ok (.obj [])) }

/-- A connected transport reporting an active print and file metadata whose
`thumbnails` list is empty. -/
def clientEmptyThumbnails : Client Unit :=
  { is_connected := fun _ => true
  , start := fun s => s
  , call_method := fun s m _p =>
      (s, if m = "printer.objects.query" then
            .ok (.obj [("status",
              .obj [("print_stats", .obj [("filename", .str "part.gcode")])])])
          else if m = "server.files.metadata" then
            .ok (.obj [("thumbnails", .arr [])])
          else .ok (.obj [])) }

/-- A connected transport reporting an active print and file metadata with a
two-element `thumbnails` list. -/
def clientTwoThumbnails : Client Unit :=
  { is_connected := fun _ => true
  , start := fun s => s
  , call_method := fun s m _p =>
      (s, if m = "printer.objects.query" then
            .ok (.obj [("status",
              .obj [("print_stats", .obj [("filename", .str "part.gcode")])])])
          else if m = "printer.info" then
            .ok (.obj [("hostname", .str "printer")])
          else if m = "server.files.metadata" then
            .ok (.obj [("thumbnails", .arr
              [ .obj [("relative_path", .str "thumbs/small.png")]
              , .obj [("relative_path", .str "thumbs/large.png")]])])
          else .ok .null) }

/-- A connected transport reporting no active print (empty filename). -/
def clientIdle : Client Unit :=
  { is_connected := fun _ => true
  , start := fun s => s
  , call_method := fun s m _p =>
      (s, if m = "printer.objects.query" then
            .ok (.obj [("status",
              .obj [("print_stats", .obj [("filename", .str "")])])])
          else .ok (.obj [])) }

/-! ### Claim theorems for the refresh cycle -/

/-- C7: whenever the transport reports itself disconnected at the moment a
fetch begins (this is the single fetch path used by all of `refresh()`'s
calls and by `async_get_cameras`), a reconnect attempt is issued strictly
before the call: the fetch's trace is exactly `start` followed by the call,
so no call is issued on a transport observed disconnected without a
preceding reconnect attempt. -/
theorem fetchData_reconnects_before_call {σ : Type} (c : Client σ) (s : σ)
    (query_path : String) (query_object : Option JValue)
    (h : c.is_connected s = false) :
    (fetchData c s query_path query_object).trace =
      [Event.start, Event.call query_path query_object] := by
  rw [fetchData_trace, h]
  rfl

/-- Witness for C7 at a concrete disconnected transport. -/
theorem fetchData_reconnects_before_call_witness :
    disconnectedClient.is_connected () = false ∧
    (fetchData disconnectedClient () "printer.info" none).trace =
      [Event.start, Event.call "printer.info" none] :=
  ⟨rfl, fetchData_reconnects_before_call disconnectedClient () "printer.info" none rfl⟩

/-- C9: neither a `refresh()` tick (successful or not) nor
`async_get_cameras` changes the coordinator's `query_obj`; only the
transport state advances. -/
theorem coordinator_query_obj_unchanged {σ : Type} (c : Client σ)
    (co : Coordinator σ) :
    (coordinatorRefresh c co).1.query_obj = co.query_obj ∧
    (coordinatorGetCameras c co).1.query_obj = co.query_obj :=
  ⟨rfl, rfl⟩

/-! Evaluation lemmas for `getThumbnail`. -/

/-- With an empty or `None` filename, `_async_get_thumbnail` issues no call
and returns the no-thumbnail marker. -/
theorem getThumbnail_no_file {σ : Type} (c : Client σ) (s : σ) (fn : JValue)
    (h : isNoneOrEmptyStr fn = true) :
    getThumbnail c s fn =
      { state := s, trace := [], result := .ok [("thumbnails", JValue.null)] } := by
  simp only [getThumbnail]
  rw [if_pos h]

/-- When the metadata fetch itself fails, `_async_get_thumbnail` propagates
that (wrapped) error. -/
theorem getThumbnail_fetch_error {σ : Type} (c : Client σ) (s : σ) (fn : JValue)
    (e : PyErr) (hne : isNoneOrEmptyStr fn = false)
    (hf : (fetchData c s "server.files.metadata"
        (some (.obj [("filename", fn)]))).result = .error e) :
    (getThumbnail c s fn).result = .error e := by
  have hcond : ¬ (isNoneOrEmptyStr fn = true) := by rw [hne]; simp
  simp only [getThumbnail]
  rw [if_neg hcond, hf]

/-- Successful thumbnail extraction: the `relative_path` of the last entry of
a non-empty `thumbnails` list. -/
theorem getThumbnail_last_entry {σ : Type} (c : Client σ) (s : σ) (fn : JValue)
    (gcode : JValue) (thumbs : List JValue) (lastEntry rel : JValue)
    (hne : isNoneOrEmptyStr fn = false)
    (hf : (fetchData c s "server.files.metadata"
        (some (.obj [("filename", fn)]))).result = .ok gcode)
    (hth : pyGet gcode "thumbnails" = .ok (.arr thumbs))
    (hlast : thumbs.getLast? = some lastEntry)
    (hrel : pyGet lastEntry "relative_path" = .ok rel) :
    (getThumbnail c s fn).result = .ok [("thumbnails", rel)] := by
  have hcond : ¬ (isNoneOrEmptyStr fn = true) := by rw [hne]; simp
  have hchain : ((pyGet gcode "thumbnails").bind pyLastItem).bind
      (fun t => pyGet t "relative_path") = .ok rel := by
    rw [hth]
    simp only [Except.bind, pyLastItem, hlast]
    exact hrel
  simp only [getThumbnail]
  rw [if_neg hcond, hf]
  simp only []
  rw [hchain]

/-- With a non-empty filename but an empty `thumbnails` list in the metadata,
the `[len - 1]` subscript raises `IndexError`, which escapes unwrapped. -/
theorem getThumbnail_empty_list {σ : Type} (c : Client σ) (s : σ) (fn : JValue)
    (gcode : JValue)
    (hne : isNoneOrEmptyStr fn = false)
    (hf : (fetchData c s "server.files.metadata"
        (some (.obj [("filename", fn)]))).result = .ok gcode)
    (hth : pyGet gcode "thumbnails" = .ok (.arr [])) :
    (getThumbnail c s fn).result = .error PyErr.indexError := by
  have hcond : ¬ (isNoneOrEmptyStr fn = true) := by rw [hne]; simp
  have hchain : ((pyGet gcode "thumbnails").bind pyLastItem).bind
      (fun t => pyGet t "relative_path") = .error PyErr.indexError := by
    rw [hth]
    simp [Except.bind, pyLastItem]
  simp only [getThumbnail]
  rw [if_neg hcond, hf]
  simp only []
  rw [hchain]

/-- The trace of `_async_get_thumbnail` on the non-empty-filename path is the
trace of the single metadata fetch. -/
theorem getThumbnail_trace_nonempty {σ : Type} (c : Client σ) (s : σ)
    (fn : JValue) (hne : isNoneOrEmptyStr fn = false) :
    (getThumbnail c s fn).trace =
      (fetchData c s "server.files.metadata"
        (some (.obj [("filename", fn)]))).trace := by
  have hcond : ¬ (isNoneOrEmptyStr fn = true) := by rw [hne]; simp
  simp only [getThumbnail]
  rw [if_neg hcond]
  cases hf : (fetchData c s "server.files.metadata"
      (some (.obj [("filename", fn)]))).result with
  | error e => rfl
  | ok gcode =>
    simp only []
    cases hrel : (pyGet gcode "thumbnails").bind pyLastItem |>.bind
        (fun t => pyGet t "relative_path") with
    | error e => rfl
    | ok rel => rfl

/-! Evaluation lemmas for `updateData`. -/

/-- Full evaluation of a successful tick, given the outcomes of the three
inner steps. -/
theorem updateData_eval_ok {σ : Type} (c : Client σ) (s : σ) (query_obj : JValue)
    (qf : List (String × JValue)) (info fn : JValue) (tf : List (String × JValue))
    (h1 : (fetchData c s "printer.objects.query" (some query_obj)).result
        = .ok (.obj qf))
    (h2 : (fetchData c (fetchData c s "printer.objects.query" (some query_obj)).state
        "printer.info" none).result = .ok info)
    (hfn : extractFilename (.obj qf) = .ok fn)
    (ht : (getThumbnail c
        (fetchData c (fetchData c s "printer.objects.query" (some query_obj)).state
          "printer.info" none).state fn).result = .ok tf) :
    (updateData c s query_obj).result =
      .ok (.obj (pyMergeObj (pyMergeObj qf [("printer.info", info)]) tf)) ∧
    (updateData c s query_obj).trace =
      (fetchData c s "printer.objects.query" (some query_obj)).trace ++
      (fetchData c (fetchData c s "printer.objects.query" (some query_obj)).state
        "printer.info" none).trace ++
      (getThumbnail c
        (fetchData c (fetchData c s "printer.objects.query" (some query_obj)).state
          "printer.info" none).state fn).trace := by
  constructor
  · simp only [updateData]
    rw [h1]
    simp only []
    rw [h2]
    simp only []
    rw [hfn]
    simp only []
    rw [ht]
  · simp only [updateData]
    rw [h1]
    simp only []
    rw [h2]
    simp only []
    rw [hfn]
    simp only []
    rw [ht]

/-- Evaluation of a tick whose filename extraction raises: the error escapes
unwrapped and only the first two calls were issued. -/
theorem updateData_eval_extract_error {σ : Type} (c : Client σ) (s : σ)
    (query_obj query info : JValue) (e : PyErr)
    (h1 : (fetchData c s "printer.objects.query" (some query_obj)).result
        = .ok query)
    (h2 : (fetchData c (fetchData c s "printer.objects.query" (some query_obj)).state
        "printer.info" none).result = .ok info)
    (hx : extractFilename query = .error e) :
    (updateData c s query_obj).result = .error e ∧
    (updateData c s query_obj).trace =
      (fetchData c s "printer.objects.query" (some query_obj)).trace ++
      (fetchData c (fetchData c s "printer.objects.query" (some query_obj)).state
        "printer.info" none).trace := by
  constructor
  · simp only [updateData]
    rw [h1]
    simp only []
    rw [h2]
    simp only []
    rw [hx]
  · simp only [updateData]
    rw [h1]
    simp only []
    rw [h2]
    simp only []
    rw [hx]

/-- Evaluation of a tick whose thumbnail step raises, given the outcomes of
the preceding steps. -/
theorem updateData_eval_thumb_error {σ : Type} (c : Client σ) (s : σ)
    (query_obj query info fn : JValue) (e : PyErr)
    (h1 : (fetchData c s "printer.objects.query" (some query_obj)).result
        = .ok query)
    (h2 : (fetchData c (fetchData c s "printer.objects.query" (some query_obj)).state
        "printer.info" none).result = .ok info)
    (hfn : extractFilename query = .ok fn)
    (ht : (getThumbnail c
        (fetchData c (fetchData c s "printer.objects.query" (some query_obj)).state
          "printer.info" none).state fn).result = .error e) :
    (updateData c s query_obj).result = .error e := by
  simp only [updateData]
  rw [h1]
  simp only []
  rw [h2]
  simp only []
  rw [hfn]
  simp only []
  rw [ht]

/-- C2: when the transport call underlying any one of the three RPC calls of
a tick raises (the first query, `printer.info`, or an actually-issued
`server.files.metadata`), the tick surfaces exactly the single wrapped
`UpdateFailed` error and returns no partial snapshot. -/
theorem updateData_wraps_rpc_failure {σ : Type} (c : Client σ) (s : σ)
    (query_obj : JValue)
    (h :
      (∃ e, (fetchData c s "printer.objects.query" (some query_obj)).result
          = .error e) ∨
      (∃ query e,
        (fetchData c s "printer.objects.query" (some query_obj)).result
          = .ok query ∧
        (fetchData c (fetchData c s "printer.objects.query" (some query_obj)).state
            "printer.info" none).result = .error e) ∨
      (∃ query info fn e,
        (fetchData c s "printer.objects.query" (some query_obj)).result
          = .ok query ∧
        (fetchData c (fetchData c s "printer.objects.query" (some query_obj)).state
            "printer.info" none).result = .ok info ∧
        extractFilename query = .ok fn ∧
        isNoneOrEmptyStr fn = false ∧
        (fetchData c
            (fetchData c
              (fetchData c s "printer.objects.query" (some query_obj)).state
              "printer.info" none).state
            "server.files.metadata" (some (.obj [("filename", fn)]))).result
          = .error e)) :
    (updateData c s query_obj).result = .error PyErr.updateFailed := by
  rcases h with ⟨e, he⟩ | ⟨query, e, hq, he⟩ | ⟨query, info, fn, e, hq, hi, hfn, hne, he⟩
  · have heq : e = PyErr.updateFailed := fetchData_error_eq _ _ _ _ _ he
    subst heq
    simp only [updateData]
    rw [he]
  · have heq : e = PyErr.updateFailed := fetchData_error_eq _ _ _ _ _ he
    subst heq
    simp only [updateData]
    rw [hq]
    simp only []
    rw [he]
  · have heq : e = PyErr.updateFailed := fetchData_error_eq _ _ _ _ _ he
    subst heq
    exact updateData_eval_thumb_error c s query_obj query info fn PyErr.updateFailed
      hq hi hfn (getThumbnail_fetch_error _ _ _ _ hne he)

/-- Witness for C2: a transport whose calls always raise makes the tick
return the single `UpdateFailed` error. -/
theorem updateData_wraps_rpc_failure_witness :
    (updateData failingClient () (JValue.obj [])).result
      = .error PyErr.updateFailed :=
  updateData_wraps_rpc_failure failingClient () (JValue.obj [])
    (Or.inl ⟨PyErr.updateFailed, rfl⟩)

/-- Lookup through the snapshot merge: the two reserved keys take the later
values, every other key resolves in the query-result fields. -/
theorem assocLookup_merge (qf : List (String × JValue)) (info v : JValue)
    (k : String) :
    assocLookup
        (pyMergeObj (pyMergeObj qf [("printer.info", info)]) [("thumbnails", v)]) k =
      if k = "thumbnails" then some v
      else if k = "printer.info" then some info
      else assocLookup qf k := by
  rw [pyMergeObj_single, pyMergeObj_single]
  by_cases hk : k = "thumbnails"
  · subst hk
    rw [assocLookup_setKey_self, if_pos rfl]
  · rw [assocLookup_setKey_ne _ _ _ _ hk, if_neg hk]
    by_cases hk2 : k = "printer.info"
    · subst hk2
      rw [assocLookup_setKey_self, if_pos rfl]
    · rw [assocLookup_setKey_ne _ _ _ _ hk2, if_neg hk2]

/-- C8: a successful tick returns exactly the Python merge
`{**query, **{"printer.info": info}, **thumbnail}`: the reserved keys
`"printer.info"` and `"thumbnails"` hold the info result and the thumbnail
value, every other key holds its query-result value, and no other entries
appear. -/
theorem updateData_snapshot_union {σ : Type} (c : Client σ) (s : σ)
    (query_obj : JValue) (qf : List (String × JValue)) (info fn : JValue)
    (tf : List (String × JValue))
    (h1 : (fetchData c s "printer.objects.query" (some query_obj)).result
        = .ok (.obj qf))
    (h2 : (fetchData c (fetchData c s "printer.objects.query" (some query_obj)).state
        "printer.info" none).result = .ok info)
    (hfn : extractFilename (.obj qf) = .ok fn)
    (ht : (getThumbnail c
        (fetchData c (fetchData c s "printer.objects.query" (some query_obj)).state
          "printer.info" none).state fn).result = .ok tf) :
    ∃ v, tf = [("thumbnails", v)] ∧
      (updateData c s query_obj).result =
        .ok (.obj (pyMergeObj (pyMergeObj qf [("printer.info", info)]) tf)) ∧
      ∀ k, pyLookup (.obj (pyMergeObj (pyMergeObj qf [("printer.info", info)]) tf)) k =
        if k = "thumbnails" then some v
        else if k = "printer.info" then some info
        else assocLookup qf k := by
  obtain ⟨v, rfl⟩ := getThumbnail_ok_shape _ _ _ _ ht
  exact ⟨v, rfl, (updateData_eval_ok c s query_obj qf info fn _ h1 h2 hfn ht).1,
    fun k => assocLookup_merge qf info v k⟩

/-- Witness for C8 at a concrete idle printer (empty filename, so the
thumbnail part is the no-thumbnail marker). -/
theorem updateData_snapshot_union_witness :
    ∃ v, ([(("thumbnails" : String), JValue.null)] : List (String × JValue))
        = [("thumbnails", v)] ∧
      (updateData clientIdle () (JValue.obj [])).result =
        .ok (.obj (pyMergeObj
          (pyMergeObj
            [("status", JValue.obj
              [("print_stats", JValue.obj [("filename", JValue.str "")])])]
            [("printer.info", JValue.obj [])])
          [("thumbnails", JValue.null)])) ∧
      ∀ k, pyLookup (.obj (pyMergeObj
          (pyMergeObj
            [("status", JValue.obj
              [("print_stats", JValue.obj [("filename", JValue.str "")])])]
            [("printer.info", JValue.obj [])])
          [("thumbnails", JValue.null)])) k =
        if k = "thumbnails" then some v
        else if k = "printer.info" then some (JValue.obj [])
        else assocLookup
          [("status", JValue.obj
            [("print_stats", JValue.obj [("filename", JValue.str "")])])] k :=
  updateData_snapshot_union clientIdle () (JValue.obj [])
    [("status", JValue.obj [("print_stats", JValue.obj [("filename", JValue.str "")])])]
    (JValue.obj []) (JValue.str "") [("thumbnails", JValue.null)]
    rfl rfl rfl rfl

/-- C4: with a non-empty filename and a metadata response carrying a
non-empty `thumbnails` list, the snapshot's `"thumbnails"` entry is the
`relative_path` of the last element of that list. -/
theorem updateData_thumbnail_last {σ : Type} (c : Client σ) (s : σ)
    (query_obj : JValue) (qf : List (String × JValue)) (info fn gcode : JValue)
    (thumbs : List JValue) (lastEntry rel : JValue)
    (h1 : (fetchData c s "printer.objects.query" (some query_obj)).result
        = .ok (.obj qf))
    (h2 : (fetchData c (fetchData c s "printer.objects.query" (some query_obj)).state
        "printer.info" none).result = .ok info)
    (hfn : extractFilename (.obj qf) = .ok fn)
    (hne : isNoneOrEmptyStr fn = false)
    (hmeta : (fetchData c
        (fetchData c (fetchData c s "printer.objects.query" (some query_obj)).state
          "printer.info" none).state
        "server.files.metadata" (some (.obj [("filename", fn)]))).result
      = .ok gcode)
    (hth : pyGet gcode "thumbnails" = .ok (.arr thumbs))
    (hlast : thumbs.getLast? = some lastEntry)
    (hrel : pyGet lastEntry "relative_path" = .ok rel) :
    ∃ fields, (updateData c s query_obj).result = .ok (.obj fields) ∧
      pyLookup (.obj fields) "thumbnails" = some rel := by
  have ht := getThumbnail_last_entry c
    (fetchData c (fetchData c s "printer.objects.query" (some query_obj)).state
      "printer.info" none).state fn gcode thumbs lastEntry rel hne hmeta hth hlast hrel
  refine ⟨pyMergeObj (pyMergeObj qf [("printer.info", info)]) [("thumbnails", rel)],
    (updateData_eval_ok c s query_obj qf info fn _ h1 h2 hfn ht).1, ?_⟩
  show assocLookup _ "thumbnails" = some rel
  rw [assocLookup_merge, if_pos rfl]

/-- Witness for C4 at a concrete printing client with two thumbnails. -/
theorem updateData_thumbnail_last_witness :
    ∃ fields, (updateData clientTwoThumbnails () (JValue.obj [])).result
        = .ok (.obj fields) ∧
      pyLookup (.obj fields) "thumbnails" = some (JValue.str "thumbs/large.png") :=
  updateData_thumbnail_last clientTwoThumbnails () (JValue.obj [])
    [("status", JValue.obj
      [("print_stats", JValue.obj [("filename", JValue.str "part.gcode")])])]
    (JValue.obj [("hostname", JValue.str "printer")]) (JValue.str "part.gcode")
    (JValue.obj [("thumbnails", JValue.arr
      [ JValue.obj [("relative_path", JValue.str "thumbs/small.png")]
      , JValue.obj [("relative_path", JValue.str "thumbs/large.png")]])])
    [ JValue.obj [("relative_path", JValue.str "thumbs/small.png")]
    , JValue.obj [("relative_path", JValue.str "thumbs/large.png")]]
    (JValue.obj [("relative_path", JValue.str "thumbs/large.png")])
    (JValue.str "thumbs/large.png")
    rfl rfl rfl rfl rfl rfl rfl rfl

/-- Counterexample to C3 as stated: when `status.print_stats.filename` is
absent from the query result, no `server.files.metadata` call is issued, but
the tick raises an unwrapped `KeyError` and returns no merged snapshot at
all, so its thumbnail entry cannot be the no-thumbnail marker. -/
theorem updateData_missing_filename_no_snapshot :
    hasCallTo "server.files.metadata"
        (updateData clientMissingFilename () (JValue.obj [])).trace = false ∧
    (updateData clientMissingFilename () (JValue.obj [])).result
      = .error (PyErr.keyError "filename") ∧
    ∀ snapshot, (updateData clientMissingFilename () (JValue.obj [])).result
      ≠ .ok snapshot := by
  refine ⟨rfl, rfl, ?_⟩
  intro snapshot h
  rw [show (updateData clientMissingFilename () (JValue.obj [])).result
      = .error (PyErr.keyError "filename") from rfl] at h
  exact Except.noConfusion h

/-- C3 (amended): in a tick whose first two calls succeed, if every
successfully extracted filename is empty or `None` — which also covers the
case where extraction raises because the key is absent — then no
`server.files.metadata` call is issued; when the filename extraction
succeeds (empty filename) the snapshot's `"thumbnails"` entry is the
no-thumbnail marker `None`, and when the extraction raises (absent key) the
unwrapped lookup error escapes and no snapshot is returned. -/
theorem updateData_no_filename_amended {σ : Type} (c : Client σ) (s : σ)
    (query_obj query info : JValue)
    (h1 : (fetchData c s "printer.objects.query" (some query_obj)).result
        = .ok query)
    (h2 : (fetchData c (fetchData c s "printer.objects.query" (some query_obj)).state
        "printer.info" none).result = .ok info)
    (h3 : ∀ fn, extractFilename query = .ok fn → isNoneOrEmptyStr fn = true) :
    hasCallTo "server.files.metadata" (updateData c s query_obj).trace = false ∧
    (∀ fn, extractFilename query = .ok fn →
      ∃ fields, (updateData c s query_obj).result = .ok (.obj fields) ∧
        pyLookup (.obj fields) "thumbnails" = some JValue.null) ∧
    (∀ e, extractFilename query = .error e →
      (updateData c s query_obj).result = .error e) := by
  cases hx : extractFilename query with
  | ok fn =>
    have hempty := h3 fn hx
    obtain ⟨qfields, rfl⟩ := extractFilename_ok_obj query fn hx
    have hthumb := getThumbnail_no_file c
      (fetchData c (fetchData c s "printer.objects.query" (some query_obj)).state
        "printer.info" none).state fn hempty
    have ht : (getThumbnail c
        (fetchData c (fetchData c s "printer.objects.query" (some query_obj)).state
          "printer.info" none).state fn).result
        = .ok [("thumbnails", JValue.null)] := by rw [hthumb]
    have heval := updateData_eval_ok c s query_obj qfields info fn _ h1 h2 hx ht
    refine ⟨?_, ?_, ?_⟩
    · rw [heval.2, hasCallTo_append, hasCallTo_append, hasCallTo_fetchData,
        hasCallTo_fetchData,
        show (getThumbnail c
          (fetchData c (fetchData c s "printer.objects.query" (some query_obj)).state
            "printer.info" none).state fn).trace = [] from by rw [hthumb]]
      decide
    · intro fn' hfn'
      injection hfn' with hEq
      subst hEq
      refine ⟨pyMergeObj (pyMergeObj qfields [("printer.info", info)])
        [("thumbnails", JValue.null)], heval.1, ?_⟩
      show assocLookup _ "thumbnails" = some JValue.null
      rw [assocLookup_merge, if_pos rfl]
    · intro e he
      exact absurd he (by simp)
  | error e =>
    have heval := updateData_eval_extract_error c s query_obj query info e h1 h2 hx
    refine ⟨?_, ?_, ?_⟩
    · rw [heval.2, hasCallTo_append, hasCallTo_fetchData, hasCallTo_fetchData]
      decide
    · intro fn hfn
      exact absurd hfn (by simp)
    · intro e' he'
      injection he' with hEq
      rw [← hEq]
      exact heval.1

/-- Witness for the amended C3 at a concrete idle printer (empty filename). -/
theorem updateData_no_filename_amended_witness :
    hasCallTo "server.files.metadata"
        (updateData clientIdle () (JValue.obj [])).trace = false ∧
    (∀ fn, extractFilename (JValue.obj
        [("status", JValue.obj
          [("print_stats", JValue.obj [("filename", JValue.str "")])])]) = .ok fn →
      ∃ fields, (updateData clientIdle () (JValue.obj [])).result
          = .ok (.obj fields) ∧
        pyLookup (.obj fields) "thumbnails" = some JValue.null) ∧
    (∀ e, extractFilename (JValue.obj
        [("status", JValue.obj
          [("print_stats", JValue.obj [("filename", JValue.str "")])])]) = .error e →
      (updateData clientIdle () (JValue.obj [])).result = .error e) :=
  updateData_no_filename_amended clientIdle () (JValue.obj [])
    (JValue.obj [("status", JValue.obj
      [("print_stats", JValue.obj [("filename", JValue.str "")])])])
    (JValue.obj []) rfl rfl
    (by
      intro fn hfn
      have h : (Except.ok (JValue.str "") : Except PyErr JValue) = Except.ok fn := hfn
      injection h with hEq
      rw [← hEq]
      rfl)

/-- C5: with a non-empty filename and an empty `thumbnails` list in the
metadata response, the source's `[len(...) - 1]` subscript is an
out-of-bounds access: the tick raises `IndexError` instead of producing the
no-thumbnail marker. -/
theorem updateData_empty_thumbnails_crashes :
    (updateData clientEmptyThumbnails () (JValue.obj [])).result
      = .error PyErr.indexError := rfl

/-- C10: exceptions arising inside `refresh()` outside a `call_method`
invocation propagate unwrapped: a query result without the `filename` key
yields a bare `KeyError`, and an empty `thumbnails` list yields a bare
`IndexError`, neither of which is the wrapped `UpdateFailed`. -/
theorem updateData_unwrapped_errors :
    ((updateData clientMissingFilename () (JValue.obj [])).result
        = .error (PyErr.keyError "filename") ∧
      PyErr.keyError "filename" ≠ PyErr.updateFailed) ∧
    ((updateData clientEmptyThumbnails () (JValue.obj [])).result
        = .error PyErr.indexError ∧
      PyErr.indexError ≠ PyErr.updateFailed) :=
  ⟨⟨rfl, by decide⟩, ⟨rfl, by decide⟩⟩

end Moonraker
